import Mathlib

/-!
Shallow embedding of the build-environment provisioning scripts
(`bootstrap.py`, `gn_gen.py`) of the `build_chromium` repository.

Conventions of the embedding:
* Python functions that only compute values become Lean functions.
* Python functions that can `raise` return `Except String α`; the error
  string is the exception's message.
* Ambient process state (`sys.platform`, `platform.machine()`, the
  filesystem existence checks, the values read back from the `DEPS`
  manifests) is passed in explicitly as a `Config` record: every run of
  the orchestrator is a pure function of that record.
* Side effects (subprocess invocations, environment mutation, renames)
  are reified as a `Step`; the orchestrator produces the ordered list of
  steps it would perform — its Provisioning Plan.
-/

deriving instance DecidableEq for Except

namespace BuildChromium

/-- Python truthiness of an optional string argument: `None` and the
empty string are falsy (`if sha1:` in the source). -/
def truthy : Option String → Bool
  | none => false
  | some s => s ≠ ""

/-- Python `str.lower()`, characterwise on the underlying character list. -/
def pyLower (s : String) : String := ⟨s.data.map Char.toLower⟩

/-- Python `str.startswith(pre)`. -/
def pyStartswith (s pre : String) : Bool := pre.data.isPrefixOf s.data

/-- Contiguous-sublist test on character lists, by successive prefix
checks. -/
def listContains (l pat : List Char) : Bool :=
  pat.isPrefixOf l ||
    (match l with
     | [] => false
     | _ :: t => listContains t pat)

/-- Python substring membership, `pat in line`. -/
def pyContains (line pat : String) : Bool := listContains line.data pat.data

/-- Python `str.strip()`: whitespace removed from both ends. -/
def pyStrip (s : String) : String :=
  ⟨((s.data.dropWhile Char.isWhitespace).reverse.dropWhile Char.isWhitespace).reverse⟩

/-- Python slicing `s[:-n]`. -/
def pyDropRight (s : String) (n : Nat) : String :=
  ⟨s.data.take (s.data.length - n)⟩

/-- `current_os` of bootstrap.py (lines 30-38): maps `sys.platform` to one
of the tokens `linux`, `win`, `mac`, or raises `ValueError`. -/
def current_os (sysPlatform : String) : Except String String :=
  if pyStartswith sysPlatform "linux" then .ok "linux"
  else if pyStartswith sysPlatform "win" then .ok "win"
  else if sysPlatform = "darwin" then .ok "mac"
  else .error ("Unsupported platform: " ++ sysPlatform)

/-- `current_cpu` of bootstrap.py (lines 40-49): lowercases
`platform.machine()` and normalizes it to `x64`, `arm64` or `arm`, or
raises `ValueError`. -/
def current_cpu (machine : String) : Except String String :=
  let arch := pyLower machine
  if arch = "amd64" ∨ arch = "x86_64" ∨ arch = "x64" then .ok "x64"
  else if arch = "arm64" then .ok "arm64"
  else if pyStartswith arch "arm" then .ok "arm"
  else .error ("Unrecognized CPU architecture: " ++ arch)

/-- `download_from_google_storage` of bootstrap.py (lines 98-112): builds
the argument vector for the `download_from_google_storage.py` client and
invokes it via `subprocess.check_call`.  The function performs no
validation of its own: it always reaches the client invocation, so the
embedding always returns `.ok` with the argv it hands to the client
(`"python"` stands for `sys.executable`). -/
def download_from_google_storage (bucket : String)
    (sha_file sha1 : Option String) (extract : Bool) (output : Option String) :
    Except String (List String) :=
  let args := ["python", "third_party/depot_tools/download_from_google_storage.py",
               "--no_resume", "--no_auth", "--bucket", bucket]
  let args := args ++ (if truthy sha1 then [sha1.getD ""] else [])
  let args := args ++ (if truthy sha_file then ["-s", sha_file.getD ""] else [])
  let args := args ++ (if extract then ["--extract"] else [])
  let args := args ++ (match output with
    | some o => if o ≠ "" then ["-o", o] else []
    | none => [])
  .ok args

/-- `CHROMIUM_URL` module constant of bootstrap.py (line 14). -/
def CHROMIUM_URL : String :=
  "https://github.com/chrohime/chromium_source_tarball/releases/download"

/-- One side-effecting action of the orchestrator, in the order `main`
performs them.  `runScript s a` is `subprocess.check_call([sys.executable, s] + a)`;
`winTools` is the `win_tools.bat` depot_tools bootstrap call;
`setEnv` is the environment overlay written by `add_depot_tools_to_path`;
`cipdEnsure` is one `cipd ensure` invocation; `gsDownload` records the
parameters of one `download_from_google_storage` call. -/
inductive Step
  | downloadExtract (url dest : String)
  | rename (src dst : String)
  | winTools
  | setEnv (overlay : List (String × String))
  | chdir (dir : String)
  | runScript (script : String) (args : List String)
  | cipdEnsure (root package version : String)
  | gsDownload (bucket : String) (sha1 shaFile : Option String)
      (extract : Bool) (output : Option String)
  deriving DecidableEq, Repr

/-- `add_depot_tools_to_path` of bootstrap.py (lines 16-28), as the ordered
environment overlay it writes.  `rootDir` stands for the runtime `ROOT_DIR`
(directory of the script), `oldPath` for the prior `os.environ[PATH]`;
path joining is modelled with `/` and `os.pathsep` with `:`.  The overlay
does not depend on the host platform: every assignment, including the four
Windows-toolchain variables, is written unconditionally. -/
def add_depot_tools_to_path (rootDir src_dir oldPath : String) :
    List (String × String) :=
  [("DEPOT_TOOLS_UPDATE", "0"),
   ("CHROMIUM_BUILDTOOLS_PATH", src_dir ++ "/buildtools"),
   ("PATH", src_dir ++ "/third_party/ninja" ++ ":" ++
     (rootDir ++ "/vendor/depot_tools") ++ ":" ++ oldPath),
   ("DEPOT_TOOLS_WIN_TOOLCHAIN", "1"),
   ("DEPOT_TOOLS_WIN_TOOLCHAIN_BASE_URL",
     "https://dev-cdn.electronjs.org/windows-toolchains/_"),
   ("GYP_MSVS_HASH_27370823e7", "28622d16b1"),
   ("GYP_MSVS_HASH_7393122652", "3ba76c5c20")]

/-- Result of one `cipd` call of bootstrap.py (lines 63-75): the client
binary chosen, its argument vector, the ensure-file body written to its
standard input, the lines printed by the wrapper, and whether the wrapper
returned or raised. -/
structure CipdRun where
  bin : String
  argv : List String
  stdinData : String
  printed : List String
  result : Except String Unit
  deriving Repr

/-- `cipd` of bootstrap.py (lines 63-75), as a function of the spawned
process outcome (`returncode`, captured `stdout`, `stderr`): on non-zero
exit the wrapper prints the two captured streams and raises
`ValueError`; on zero exit it prints nothing and returns. -/
def cipd (host_os root package version : String)
    (returncode : Int) (stdout stderr : String) : CipdRun :=
  let cipd_bin := if host_os = "win" then "cipd.bat" else "cipd"
  { bin := cipd_bin
    argv := [cipd_bin, "ensure", "-root", root, "-ensure-file", "-"]
    stdinData := package ++ " " ++ version
    printed := if returncode ≠ 0 then [stdout, stderr] else []
    result := if returncode ≠ 0 then .error "cipd failed." else .ok () }

/-- Ambient inputs of one orchestrator run: the process environment the
scripts read, the filesystem existence checks they make, and the values
the Dependency Pin Reader (`read_var_from_deps`, `search_pattern`,
`ast.literal_eval`) resolves from the manifests.  The pin-reader
subprocesses are modelled as oracles (`depsVar`, `nodeVersion`,
`gcsObjectName`/`gcsOutputFile`) since their outputs come from files
outside this repository. -/
structure Config where
  sysPlatform : String
  machine : String
  rootDir : String
  envPath : String
  revision : Option String
  tarball_url : Option String
  src_dir : String
  target_cpu : String
  target_os : String
  srcDirIsDir : Bool
  tarballDirIsDir : Bool
  nodeMarkerExists : Bool
  esbuildDirIsDir : Bool
  nodeVersion : String
  depsVar : String → String → String
  gcsObjectName : String → String
  gcsOutputFile : String → String

/-- Python name resolution as seen from the body of `download_nodejs` at
bootstrap.py line 131: locals are `host_os` and `node_version`; the module
globals of bootstrap.py bind string values only for `ROOT_DIR` and
`CHROMIUM_URL` (the rest are modules and functions).  `host_cpu` is a
local of `main` and is not visible here, so looking it up yields `none`
(a `NameError` at the point of use). -/
def nodejsScopeLookup (rootDir host_os node_version n : String) :
    Option String :=
  if n = "host_os" then some host_os
  else if n = "node_version" then some node_version
  else if n = "ROOT_DIR" then some rootDir
  else if n = "CHROMIUM_URL" then some CHROMIUM_URL
  else none

/-- `download_gcs_dep` of bootstrap.py (lines 114-119): resolves the GCS
object pin for `name` from the manifest and fetches it with
`download_from_google_storage(bucket, sha1=object_name, output=...)`
(`extract` keeps its default `True`). -/
def download_gcs_dep (cfg : Config) (name bucket : String) : List Step :=
  [Step.gsDownload bucket (some (cfg.gcsObjectName name)) none true
    (some (name ++ "/" ++ cfg.gcsOutputFile name))]

/-- `download_nodejs` of bootstrap.py (lines 121-142).  When the linux sha1
marker file exists, the linux node archive is always fetched; the mac
branch then interpolates `host_cpu` into an f-string, a name unbound in
this scope, so it raises a `NameError`.  Without the marker file the
manifest-driven `download_gcs_dep` path is taken. -/
def download_nodejs (cfg : Config) (host_os : String) :
    Except String (List Step) :=
  if cfg.nodeMarkerExists then
    let node_version := cfg.nodeVersion
    let first := Step.gsDownload ("chromium-nodejs/" ++ node_version) none
      (some "third_party/node/linux/node-linux-x64.tar.gz.sha1") true none
    if host_os = "mac" then
      match nodejsScopeLookup cfg.rootDir host_os node_version "host_cpu" with
      | some hc => .ok [first,
          Step.gsDownload ("chromium-nodejs/" ++ node_version) none
            (some ("third_party/node/mac/node-darwin-" ++ hc ++ ".tar.gz.sha1"))
            true none]
      | none => .error "NameError: name host_cpu is not defined"
    else if host_os = "win" then
      .ok [first,
        Step.gsDownload ("chromium-nodejs/" ++ node_version) none
          (some "third_party/node/win/node.exe.sha1") false none]
    else .ok [first]
  else
    .ok (download_gcs_dep cfg "third_party/node/linux" "chromium-nodejs" ++
      (if host_os = "mac" then
        download_gcs_dep cfg "third_party/node/mac" "chromium-nodejs" ++
          download_gcs_dep cfg "third_party/node/mac_arm64" "chromium-nodejs"
       else if host_os = "win" then
        download_gcs_dep cfg "third_party/node/win" "chromium-nodejs"
       else []))

/-- The ordered steps of the stages of `main` after the source tarball
section (bootstrap.py lines 179-247), given the resolved host tokens and
the steps of `download_nodejs`: bootstrap depot_tools on Windows,
materialize the environment, enter the source directory, update the
Windows toolchain, fetch compilers, node, the pinned cipd tools, gn, and
finally the linux sysroots. -/
def mainRestSteps (cfg : Config) (host_os host_cpu : String)
    (nodeSteps : List Step) : List Step :=
  let gn_version := cfg.depsVar "src/buildtools/mac:gn/gn/mac-${arch}" "DEPS"
  (if host_os = "win" then [Step.winTools] else []) ++
          [Step.setEnv (add_depot_tools_to_path cfg.rootDir cfg.src_dir cfg.envPath),
           Step.chdir cfg.src_dir] ++
          (if host_os = "win" then
            [Step.runScript "build/vs_toolchain.py" ["update", "--force"]] else []) ++
          [Step.runScript "tools/clang/scripts/update.py" [],
           Step.runScript "tools/rust/update_rust.py" []] ++
          nodeSteps ++
          (if cfg.esbuildDirIsDir then
            [Step.cipdEnsure "third_party/devtools-frontend/src/third_party/esbuild"
              "infra/3pp/tools/esbuild/${platform}"
              (cfg.depsVar "third_party/esbuild:infra/3pp/tools/esbuild/${platform}"
                "third_party/devtools-frontend/src/DEPS")] else []) ++
          [Step.cipdEnsure "third_party/ninja" "infra/3pp/tools/ninja/${platform}"
            (cfg.depsVar "src/third_party/ninja:infra/3pp/tools/ninja/${platform}" "DEPS"),
           Step.cipdEnsure "buildtools/reclient" "infra/rbe/client/${platform}"
            (cfg.depsVar "src/buildtools/reclient:infra/rbe/client/${platform}" "DEPS")] ++
          (if host_os = "linux" then
            [Step.cipdEnsure "buildtools/linux64" "gn/gn/linux-${arch}" gn_version] ++
            (if cfg.target_os = "win" then
              [Step.gsDownload "chromium-browser-clang/rc" none
                (some "build/toolchain/win/rc/linux64/rc.sha1") false none] else [])
           else if host_os = "mac" then
            [Step.cipdEnsure "buildtools/mac" "gn/gn/mac-${arch}" gn_version,
             Step.gsDownload "chromium-browser-clang" none
              (some ("tools/clang/dsymutil/bin/dsymutil." ++ host_cpu ++ ".sha1"))
              false (some "tools/clang/dsymutil/bin/dsymutil")] ++
            (if cfg.target_os = "win" then
              [Step.gsDownload "chromium-browser-clang/rc" none
                (some "build/toolchain/win/rc/mac/rc.sha1") false none] else [])
           else if host_os = "win" then
            [Step.cipdEnsure "buildtools/win" "gn/gn/windows-amd64" gn_version,
             Step.gsDownload "chromium-browser-clang/rc" none
              (some "build/toolchain/win/rc/win/rc.exe.sha1") false none]
           else []) ++
          (if host_os = "linux" then
            [Step.runScript "build/linux/sysroot_scripts/install-sysroot.py"
              ["--arch", host_cpu]] ++
            (if host_cpu ≠ cfg.target_cpu then
              [Step.runScript "build/linux/sysroot_scripts/install-sysroot.py"
                ["--arch", cfg.target_cpu]] else [])
           else [])

/-- The stages of `main` after the source tarball section (bootstrap.py
lines 179-247): resolve the host tokens, run `download_nodejs`
(propagating any exception), and emit `mainRestSteps`. -/
def mainRest (cfg : Config) : Except String (List Step) :=
  match current_os cfg.sysPlatform with
  | .error e => .error e
  | .ok host_os =>
    match current_cpu cfg.machine with
    | .error e => .error e
    | .ok host_cpu =>
      match download_nodejs cfg host_os with
      | .error e => .error e
      | .ok nodeSteps => .ok (mainRestSteps cfg host_os host_cpu nodeSteps)

/-- `os.path.basename` on the forward-slash URLs used here: everything
after the final slash. -/
def basename (p : String) : String :=
  ⟨(p.data.reverse.takeWhile (· ≠ '/')).reverse⟩

/-- `main` of bootstrap.py (lines 144-247): argument check, source-tarball
acquisition (skipped when the destination directory exists, aborted when
the tarball's own directory is in the way), then the remaining stages. -/
def main (cfg : Config) : Except String (List Step) :=
  if ¬ truthy cfg.revision ∧ ¬ truthy cfg.tarball_url then
    .error "Must specify either --revision or --tarball-url."
  else
    let tarball_url :=
      if truthy cfg.revision then
        let rev := cfg.revision.getD ""
        CHROMIUM_URL ++ "/" ++ rev ++ "/chromium-" ++ rev ++ ".tar.xz"
      else cfg.tarball_url.getD ""
    let pre : Except String (List Step) :=
      if ¬ cfg.srcDirIsDir then
        let tarball_dir := pyDropRight (basename tarball_url) 7
        if cfg.tarballDirIsDir then
          .error ("Unable to download tarball since " ++ tarball_dir ++ " exists.")
        else
          .ok [Step.downloadExtract tarball_url ".",
               Step.rename tarball_dir cfg.src_dir]
      else .ok []
    match pre with
    | .error e => .error e
    | .ok preSteps =>
      match mainRest cfg with
      | .error e => .error e
      | .ok rest => .ok (preSteps ++ rest)

/-- The line loop of `gn_gen` in gn_gen.py (lines 16-18): suppress every
line containing `.gclient_entries missing`, print the rest stripped
(Python `str.strip` ≈ `String.trim` on ASCII whitespace). -/
def gnGenLoop : List String → List String
  | [] => []
  | line :: rest =>
    if pyContains line ".gclient_entries missing" then gnGenLoop rest
    else pyStrip line :: gnGenLoop rest

/-- `gn_gen` of gn_gen.py (lines 10-19), as a function of the gn
subprocess's output lines and exit status: it filters and prints the
lines, calls `process.wait()`, and returns without ever inspecting the
exit status — so it always returns `.ok` with the printed lines. -/
def gn_gen (host_os src_dir out_dir : String) (args : List String)
    (gnOutput : List String) (gnExit : Int) : Except String (List String) :=
  let gn_bin := if host_os = "win" then "gn.bat" else "gn"
  let _argv := [gn_bin, "gen", out_dir, "--args=" ++ String.intercalate " " args]
  let _ := gnExit
  let _ := src_dir
  .ok (gnGenLoop gnOutput)

/-! ## Verification vocabulary -/

/-- The sysroot architecture a step installs:
`some a` exactly for `subprocess.check_call([sys.executable,
'build/linux/sysroot_scripts/install-sysroot.py', '--arch', a])`. -/
def sysrootArch : Step → Option String
  | Step.runScript script args =>
    if script = "build/linux/sysroot_scripts/install-sysroot.py" then
      match args with
      | [a1, a2] => if a1 = "--arch" then some a2 else none
      | _ => none
    else none
  | _ => none

/-- The step forms the orchestrator emits only for a Windows host or a
Windows target: the depot_tools `win_tools.bat` bootstrap, the
`vs_toolchain.py` update, the `buildtools/win` gn package, the `rc`
resource-compiler blobs (bucket `chromium-browser-clang/rc`), and the
Windows node binaries. -/
def isWinOnly : Step → Prop
  | Step.winTools => True
  | Step.runScript script _ => script = "build/vs_toolchain.py"
  | Step.cipdEnsure root _ _ => root = "buildtools/win"
  | Step.gsDownload bucket _ shaFile _ output =>
      bucket = "chromium-browser-clang/rc" ∨
      shaFile = some "third_party/node/win/node.exe.sha1" ∨
      (∃ x, output = some ("third_party/node/win/" ++ x))
  | _ => False

/-- The step forms the orchestrator emits only for a Mac host: the
`buildtools/mac` gn package, the `dsymutil` blob, and the Mac node
archives. -/
def isMacOnly : Step → Prop
  | Step.cipdEnsure root _ _ => root = "buildtools/mac"
  | Step.gsDownload _ _ shaFile _ output =>
      output = some "tools/clang/dsymutil/bin/dsymutil" ∨
      (∃ hc, shaFile = some ("third_party/node/mac/node-darwin-" ++ hc ++ ".tar.gz.sha1")) ∨
      (∃ x, output = some ("third_party/node/mac/" ++ x)) ∨
      (∃ x, output = some ("third_party/node/mac_arm64/" ++ x))
  | _ => False

/-! ## Concrete run records used as witnesses -/

/-- A concrete run: linux x64 host, target `{linux, arm}`, source
directory already present, node marker file present, manifest pins
resolved to fixed values. -/
def cfgLinuxX64 : Config :=
  { sysPlatform := "linux", machine := "x86_64", rootDir := "/rd",
    envPath := "/usr/bin", revision := some "123.0.6312.0", tarball_url := none,
    src_dir := "/rd/src", target_cpu := "arm", target_os := "linux",
    srcDirIsDir := true, tarballDirIsDir := false, nodeMarkerExists := true,
    esbuildDirIsDir := false, nodeVersion := "20.11.1",
    depsVar := fun _ _ => "pinned-version", gcsObjectName := fun _ => "obj",
    gcsOutputFile := fun _ => "node.tar.gz" }

/-- A concrete mac host run with the node marker file present. -/
def cfgMacMarker : Config :=
  { cfgLinuxX64 with
    sysPlatform := "darwin"
    machine := "arm64"
    target_cpu := "arm64"
    target_os := "mac" }

/-! ## String helper lemmas -/

/-- Two appends with incomparable left parts are never equal. -/
theorem strAppend_ne_of_not_prefix {a b : String}
    (hab : ¬ a.data <+: b.data) (hba : ¬ b.data <+: a.data) (x y : String) :
    a ++ x ≠ b ++ y := by
  intro h
  have hd : a.data ++ x.data = b.data ++ y.data := by
    have h2 := congrArg String.data h
    simpa using h2
  have h1 : a.data <+: b.data ++ y.data := ⟨x.data, hd⟩
  rcases List.prefix_or_prefix_of_prefix h1 (List.prefix_append _ _) with h3 | h3
  · exact hab h3
  · exact hba h3

/-- An append whose left part is not a prefix of `c` never equals `c`. -/
theorem strAppend_ne_left {a c : String} (h : ¬ a.data <+: c.data)
    (x : String) : a ++ x ≠ c := by
  intro hx
  refine h ⟨x.data, ?_⟩
  have h2 := congrArg String.data hx
  simpa using h2

/-- The Provisioning Plan of the `cfgLinuxX64` run, in execution order. -/
def planLinuxX64 : List Step :=
  [Step.setEnv (add_depot_tools_to_path "/rd" "/rd/src" "/usr/bin"),
   Step.chdir "/rd/src",
   Step.runScript "tools/clang/scripts/update.py" [],
   Step.runScript "tools/rust/update_rust.py" [],
   Step.gsDownload "chromium-nodejs/20.11.1" none
     (some "third_party/node/linux/node-linux-x64.tar.gz.sha1") true none,
   Step.cipdEnsure "third_party/ninja" "infra/3pp/tools/ninja/${platform}"
     "pinned-version",
   Step.cipdEnsure "buildtools/reclient" "infra/rbe/client/${platform}"
     "pinned-version",
   Step.cipdEnsure "buildtools/linux64" "gn/gn/linux-${arch}" "pinned-version",
   Step.runScript "build/linux/sysroot_scripts/install-sysroot.py" ["--arch", "x64"],
   Step.runScript "build/linux/sysroot_scripts/install-sysroot.py" ["--arch", "arm"]]

/-! ## Inversion lemmas on the orchestrator -/

/-- Every step a successful `download_nodejs` emits is a blob download
supplying exactly one of the two content identities. -/
theorem download_nodejs_ok_steps (cfg : Config) (host_os : String)
    (r : List Step) (h : download_nodejs cfg host_os = .ok r) :
    ∀ s ∈ r, ∃ b s1 sf e o, s = Step.gsDownload b s1 sf e o ∧
      ((s1 ≠ none ∧ sf = none) ∨ (s1 = none ∧ sf ≠ none)) := by
  unfold download_nodejs at h
  by_cases hm : cfg.nodeMarkerExists = true
  · simp only [hm, if_true] at h
    by_cases ho : host_os = "mac"
    · simp [ho, nodejsScopeLookup] at h
    · by_cases hw : host_os = "win" <;> simp [ho, hw] at h <;> subst h <;>
        rintro s hs <;> simp at hs
      · rcases hs with rfl | rfl
        · exact ⟨_, _, _, _, _, rfl, Or.inr ⟨rfl, by simp⟩⟩
        · exact ⟨_, _, _, _, _, rfl, Or.inr ⟨rfl, by simp⟩⟩
      · subst hs
        exact ⟨_, _, _, _, _, rfl, Or.inr ⟨rfl, by simp⟩⟩
  · simp only [hm, if_false, Bool.not_eq_true] at h
    simp [Bool.of_not_eq_true hm] at h
    subst h
    intro s hs
    by_cases ho : host_os = "mac"
    · simp [ho, download_gcs_dep] at hs
      rcases hs with rfl | rfl | rfl <;>
        exact ⟨_, _, _, _, _, rfl, Or.inl ⟨by simp, rfl⟩⟩
    · by_cases hw : host_os = "win" <;> simp [ho, hw, download_gcs_dep] at hs
      · rcases hs with rfl | rfl <;>
          exact ⟨_, _, _, _, _, rfl, Or.inl ⟨by simp, rfl⟩⟩
      · subst hs
        exact ⟨_, _, _, _, _, rfl, Or.inl ⟨by simp, rfl⟩⟩

/-- Step sanity shared by the claims: the step is neither the tarball
download nor the rename (those occur only in the tarball section), and
if it is a blob download then exactly one of the two content identities
is supplied. -/
def planStepOk : Step → Prop :=
  fun s => ((∀ u d, s ≠ Step.downloadExtract u d) ∧ (∀ a b, s ≠ Step.rename a b)) ∧
    (∀ b s1 sf e o, s = Step.gsDownload b s1 sf e o →
      ((s1 ≠ none ∧ sf = none) ∨ (s1 = none ∧ sf ≠ none)))

/-- Blob-download steps with exactly one identity satisfy `planStepOk`. -/
theorem planStepOk_gsDownload (b : String) (s1 sf : Option String) (e : Bool)
    (o : Option String)
    (h : (s1 ≠ none ∧ sf = none) ∨ (s1 = none ∧ sf ≠ none)) :
    planStepOk (Step.gsDownload b s1 sf e o) := by
  refine ⟨⟨by simp, by simp⟩, ?_⟩
  intro b' s1' sf' e' o' heq
  cases heq
  exact h

@[simp] theorem planStepOk_winTools : planStepOk Step.winTools :=
  ⟨⟨fun _ _ h => Step.noConfusion h, fun _ _ h => Step.noConfusion h⟩,
   fun _ _ _ _ _ h => Step.noConfusion h⟩

@[simp] theorem planStepOk_setEnv (o : List (String × String)) :
    planStepOk (Step.setEnv o) :=
  ⟨⟨fun _ _ h => Step.noConfusion h, fun _ _ h => Step.noConfusion h⟩,
   fun _ _ _ _ _ h => Step.noConfusion h⟩

@[simp] theorem planStepOk_chdir (d : String) : planStepOk (Step.chdir d) :=
  ⟨⟨fun _ _ h => Step.noConfusion h, fun _ _ h => Step.noConfusion h⟩,
   fun _ _ _ _ _ h => Step.noConfusion h⟩

@[simp] theorem planStepOk_runScript (s : String) (a : List String) :
    planStepOk (Step.runScript s a) :=
  ⟨⟨fun _ _ h => Step.noConfusion h, fun _ _ h => Step.noConfusion h⟩,
   fun _ _ _ _ _ h => Step.noConfusion h⟩

@[simp] theorem planStepOk_cipdEnsure (r p v : String) :
    planStepOk (Step.cipdEnsure r p v) :=
  ⟨⟨fun _ _ h => Step.noConfusion h, fun _ _ h => Step.noConfusion h⟩,
   fun _ _ _ _ _ h => Step.noConfusion h⟩

@[simp] theorem planStepOk_gs_shaFile (b f : String) (e : Bool)
    (o : Option String) : planStepOk (Step.gsDownload b none (some f) e o) :=
  planStepOk_gsDownload b none (some f) e o (Or.inr ⟨rfl, by simp⟩)

@[simp] theorem planStepOk_gs_sha1 (b s1 : String) (e : Bool)
    (o : Option String) : planStepOk (Step.gsDownload b (some s1) none e o) :=
  planStepOk_gsDownload b (some s1) none e o (Or.inl ⟨by simp, rfl⟩)

/-- Every step a successful `download_nodejs` emits satisfies
`planStepOk`. -/
theorem download_nodejs_planStepOk (cfg : Config) (host_os : String)
    (r : List Step) (h : download_nodejs cfg host_os = .ok r) :
    ∀ s ∈ r, planStepOk s := by
  intro s hs
  obtain ⟨b, s1, sf, e, o, rfl, hx⟩ :=
    download_nodejs_ok_steps cfg host_os r h s hs
  exact planStepOk_gsDownload b s1 sf e o hx

/-- Every step of `mainRestSteps` satisfies `planStepOk`, provided the
node steps do. -/
theorem mainRestSteps_forms (cfg : Config) (host_os host_cpu : String)
    (nodeSteps : List Step)
    (hns : ∀ s ∈ nodeSteps, planStepOk s) :
    ∀ s ∈ mainRestSteps cfg host_os host_cpu nodeSteps, planStepOk s := by
  unfold mainRestSteps
  simp only [List.forall_mem_append]
  and_intros <;> (try exact hns) <;> (try split_ifs) <;> intro s hs <;>
    simp only [List.cons_append, List.nil_append, List.singleton_append,
      List.append_nil, List.mem_cons, List.not_mem_nil, or_false] at hs <;>
    (rcases hs with rfl | rfl | rfl <;> simp)

/-- On a linux host, a successful `download_nodejs` emits the linux node
fetch only: either the marker-file fetch or the manifest-driven fetch. -/
theorem download_nodejs_linux_inv (cfg : Config) (r : List Step)
    (h : download_nodejs cfg "linux" = .ok r) :
    r = [Step.gsDownload ("chromium-nodejs/" ++ cfg.nodeVersion) none
          (some "third_party/node/linux/node-linux-x64.tar.gz.sha1") true none] ∨
    r = [Step.gsDownload "chromium-nodejs"
          (some (cfg.gcsObjectName "third_party/node/linux")) none true
          (some ("third_party/node/linux/" ++
            cfg.gcsOutputFile "third_party/node/linux"))] := by
  unfold download_nodejs at h
  by_cases hm : cfg.nodeMarkerExists = true
  · simp [hm] at h
    exact Or.inl h.symm
  · simp only [Bool.not_eq_true] at hm
    simp [hm, download_gcs_dep] at h
    exact Or.inr h.symm

/-- Neither linux node fetch form is a Windows- or Mac-specific step. -/
theorem download_nodejs_linux_no_win_mac (cfg : Config) (r : List Step)
    (h : download_nodejs cfg "linux" = .ok r) :
    ∀ s ∈ r, ¬ isWinOnly s ∧ ¬ isMacOnly s := by
  intro s hs
  rcases download_nodejs_linux_inv cfg r h with rfl | rfl <;> simp at hs <;> subst hs
  · constructor
    · simp only [isWinOnly, not_or]
      refine ⟨strAppend_ne_left (by decide) _, by simp, ?_⟩
      simp
    · simp only [isMacOnly, not_or]
      refine ⟨by simp, ?_, by simp, by simp⟩
      intro ⟨hc, heq⟩
      simp only [Option.some.injEq] at heq
      have h2 : "third_party/node/mac/node-darwin-" ++ (hc ++ ".tar.gz.sha1") =
          "third_party/node/linux/node-linux-x64.tar.gz.sha1" := by
        rw [← String.append_assoc]
        exact heq.symm
      exact strAppend_ne_left (by decide) _ h2
  · constructor
    · simp only [isWinOnly, not_or]
      refine ⟨by decide, by simp, ?_⟩
      intro ⟨x, heq⟩
      simp only [Option.some.injEq] at heq
      exact strAppend_ne_of_not_prefix (by decide) (by decide) _ _ heq
    · simp only [isMacOnly, not_or]
      refine ⟨?_, by simp, ?_, ?_⟩
      · intro heq
        simp only [Option.some.injEq] at heq
        exact strAppend_ne_left (by decide) _ heq
      · intro ⟨x, heq⟩
        simp only [Option.some.injEq] at heq
        exact strAppend_ne_of_not_prefix (by decide) (by decide) _ _ heq
      · intro ⟨x, heq⟩
        simp only [Option.some.injEq] at heq
        exact strAppend_ne_of_not_prefix (by decide) (by decide) _ _ heq

/-- On a linux host with a non-Windows target, no step of the remaining
stages is Windows- or Mac-specific, provided the node steps are not. -/
theorem mainRestSteps_linux_no_win_mac (cfg : Config) (host_cpu : String)
    (nodeSteps : List Step) (htar : cfg.target_os ≠ "win")
    (hns : ∀ s ∈ nodeSteps, ¬ isWinOnly s ∧ ¬ isMacOnly s) :
    ∀ s ∈ mainRestSteps cfg "linux" host_cpu nodeSteps,
      ¬ isWinOnly s ∧ ¬ isMacOnly s := by
  unfold mainRestSteps
  simp only [List.forall_mem_append]
  and_intros <;> (try exact hns) <;> (try split_ifs) <;>
    first
      | (exact absurd ‹("linux" : String) = "win"› (by decide))
      | (exact absurd ‹cfg.target_os = "win"› htar)
      | (intro s hs <;>
          simp only [List.cons_append, List.nil_append, List.singleton_append,
            List.append_nil, List.mem_cons, List.not_mem_nil, or_false] at hs <;>
          rcases hs with rfl | rfl | rfl <;> simp [isWinOnly, isMacOnly])

/-- On a linux host, the sysroot installs of the remaining stages are the
host CPU's, then the target CPU's when it differs; no other stage installs
a sysroot, provided the node steps do not. -/
theorem mainRestSteps_sysroots (cfg : Config) (host_cpu : String)
    (nodeSteps : List Step)
    (hns : ∀ s ∈ nodeSteps, sysrootArch s = none) :
    (mainRestSteps cfg "linux" host_cpu nodeSteps).filterMap sysrootArch =
      host_cpu :: (if host_cpu = cfg.target_cpu then [] else [cfg.target_cpu]) := by
  unfold mainRestSteps
  simp only [List.filterMap_append]
  rw [List.filterMap_eq_nil_iff.mpr hns]
  split_ifs <;> simp_all [sysrootArch]

/-- A successful `mainRest` run determines resolved host tokens and node
steps, and its plan is `mainRestSteps` of them. -/
theorem mainRest_inv (cfg : Config) (plan : List Step)
    (h : mainRest cfg = .ok plan) :
    ∃ host_os host_cpu nodeSteps,
      current_os cfg.sysPlatform = .ok host_os ∧
      current_cpu cfg.machine = .ok host_cpu ∧
      download_nodejs cfg host_os = .ok nodeSteps ∧
      plan = mainRestSteps cfg host_os host_cpu nodeSteps := by
  cases hos : current_os cfg.sysPlatform with
  | error e => simp [mainRest, hos] at h
  | ok host_os =>
    cases hcpu : current_cpu cfg.machine with
    | error e => simp [mainRest, hos, hcpu] at h
    | ok host_cpu =>
      cases hnode : download_nodejs cfg host_os with
      | error e => simp [mainRest, hos, hcpu, hnode] at h
      | ok nodeSteps =>
        refine ⟨host_os, host_cpu, nodeSteps, rfl, rfl, hnode, ?_⟩
        simp [mainRest, hos, hcpu, hnode] at h
        exact h.symm

/-- A successful `main` run splits into the tarball steps (empty when the
destination source directory already exists) followed by the `mainRest`
plan. -/
theorem main_inv (cfg : Config) (plan : List Step)
    (h : main cfg = .ok plan) :
    ∃ pre rest, mainRest cfg = .ok rest ∧ plan = pre ++ rest ∧
      (cfg.srcDirIsDir = true → pre = []) ∧
      (∀ s ∈ pre, (∃ u d, s = Step.downloadExtract u d) ∨
        (∃ a b, s = Step.rename a b)) := by
  unfold main at h
  by_cases hargs : ¬ truthy cfg.revision = true ∧ ¬ truthy cfg.tarball_url = true
  · simp [hargs] at h
  · simp only [hargs, if_false, if_neg hargs] at h
    by_cases hsrc : cfg.srcDirIsDir = true
    · simp only [hsrc, not_true, if_false, Bool.not_eq_true] at h
      simp at h
      cases hrest : mainRest cfg with
      | error e => simp [hrest] at h
      | ok rest =>
        refine ⟨[], rest, rfl, ?_, fun _ => rfl, by simp⟩
        simp [hrest] at h
        simpa using h.symm
    · simp only [Bool.not_eq_true] at hsrc
      simp only [hsrc] at h
      by_cases htar : cfg.tarballDirIsDir = true
      · simp [htar] at h
      · simp only [Bool.not_eq_true] at htar
        simp only [htar] at h
        cases hrest : mainRest cfg with
        | error e => simp [hrest] at h
        | ok rest =>
          simp [hrest] at h
          refine ⟨[_, _], rest, rfl, h.symm, ?_, ?_⟩
          · intro hc; rw [hc] at hsrc; cases hsrc
          · intro s hs
            simp at hs
            rcases hs with rfl | rfl
            · exact Or.inl ⟨_, _, rfl⟩
            · exact Or.inr ⟨_, _, rfl⟩

/-! ## Claim theorems -/

/-- C3 (counterexample): `platform.machine()` reports `AMD64` on Windows;
that string is none of the claim's listed inputs and does not start with
`arm`, so by the claim resolution should fail — yet `current_cpu`
lowercases first and returns `x64`. -/
theorem C3_counterexample_uppercase_machine :
    current_cpu "AMD64" = .ok "x64" ∧
    ¬("AMD64" = "amd64" ∨ "AMD64" = "x86_64" ∨ "AMD64" = "x64") ∧
    "AMD64" ≠ "arm64" ∧ pyStartswith "AMD64" "arm" = false := by
  decide

/-- C3 (amended): CPU resolution applies the claim's mapping to the
lowercased architecture string: `amd64`/`x86_64`/`x64` give `x64`,
`arm64` gives `arm64`, any other `arm`-prefixed string gives `arm`, and
everything else fails with the unrecognized-architecture error. -/
theorem C3_cpu_resolution (s : String) :
    (current_cpu s = .ok "x64" ↔
      (pyLower s = "amd64" ∨ pyLower s = "x86_64" ∨ pyLower s = "x64")) ∧
    (current_cpu s = .ok "arm64" ↔ pyLower s = "arm64") ∧
    (current_cpu s = .ok "arm" ↔
      (pyStartswith (pyLower s) "arm" = true ∧ pyLower s ≠ "arm64")) ∧
    (current_cpu s = .error ("Unrecognized CPU architecture: " ++ pyLower s) ↔
      (pyStartswith (pyLower s) "arm" = false ∧ pyLower s ≠ "amd64" ∧
       pyLower s ≠ "x86_64" ∧ pyLower s ≠ "x64")) := by
  unfold current_cpu
  set a := pyLower s with ha
  by_cases h1 : a = "amd64"
  · rw [h1]; decide
  by_cases h2 : a = "x86_64"
  · rw [h2]; decide
  by_cases h3 : a = "x64"
  · rw [h3]; decide
  by_cases h4 : a = "arm64"
  · rw [h4]; decide
  by_cases h5 : pyStartswith a "arm" = true <;> simp [h1, h2, h3, h4, h5]

/-- C4: CPU normalization is idempotent on the three normalized tokens,
and `amd64`, `x86_64`, `x64` all normalize to the same token. -/
theorem C4_cpu_normalization_idempotent :
    current_cpu "x64" = .ok "x64" ∧ current_cpu "arm64" = .ok "arm64" ∧
    current_cpu "arm" = .ok "arm" ∧
    current_cpu "amd64" = .ok "x64" ∧ current_cpu "x86_64" = .ok "x64" ∧
    current_cpu "amd64" = current_cpu "x86_64" ∧
    current_cpu "x86_64" = current_cpu "x64" := by
  decide

/-- C5: OS resolution returns exactly one of `linux`, `win`, `mac` or
fails with the unsupported-platform error; it fails precisely on the
identifiers no branch recognizes, never defaulting. -/
theorem C5_os_resolution (s : String) :
    (current_os s = .ok "linux" ∨ current_os s = .ok "win" ∨
     current_os s = .ok "mac" ∨
     current_os s = .error ("Unsupported platform: " ++ s)) ∧
    (current_os s = .error ("Unsupported platform: " ++ s) ↔
      (pyStartswith s "linux" = false ∧ pyStartswith s "win" = false ∧
       s ≠ "darwin")) := by
  unfold current_os
  by_cases h1 : pyStartswith s "linux" = true
  · simp [h1]
  by_cases h2 : pyStartswith s "win" = true
  · simp [h1, h2]
  by_cases h3 : s = "darwin"
  · subst h3; simp [h1, h2]
  · simp [h1, h2, h3]

/-- C6: the package installer surfaces the captured streams verbatim and
raises exactly when the client process exits non-zero, and prints
nothing and returns when it exits zero. -/
theorem C6_cipd_failure_surfacing (host_os root package version : String)
    (returncode : Int) (stdout stderr : String) :
    (cipd host_os root package version returncode stdout stderr).printed =
      (if returncode = 0 then [] else [stdout, stderr]) ∧
    (cipd host_os root package version returncode stdout stderr).result =
      (if returncode = 0 then .ok () else .error "cipd failed.") := by
  unfold cipd
  by_cases h : returncode = 0 <;> simp [h]

/-- The gn_gen line loop is the strip-map of the suppression filter. -/
theorem gnGenLoop_eq (lines : List String) :
    gnGenLoop lines =
      (lines.filter (fun l => !(pyContains l ".gclient_entries missing"))).map
        pyStrip := by
  induction lines with
  | nil => rfl
  | cons l rest ih =>
    by_cases h : pyContains l ".gclient_entries missing" = true <;>
      simp [gnGenLoop, h, ih]

/-- C10: `gn_gen` returns normally for every exit status of the gn
subprocess, printing every output line stripped except those containing
`.gclient_entries missing`, which are suppressed. -/
theorem C10_gn_gen_ignores_exit_status (host_os src_dir out_dir : String)
    (args gnOutput : List String) (gnExit : Int) :
    gn_gen host_os src_dir out_dir args gnOutput gnExit =
      .ok ((gnOutput.filter
        (fun l => !(pyContains l ".gclient_entries missing"))).map pyStrip) := by
  unfold gn_gen
  rw [gnGenLoop_eq]

/-- C1 (counterexample): a Blob Fetcher call supplying both the direct
content identity and the hash-pointer file does not fail: it reaches the
retrieval-client invocation with both identities in the argument vector;
a call supplying neither also proceeds, with no identity at all. -/
theorem C1_counterexample_no_contract_check :
    download_from_google_storage "chromium-browser-clang" (some "f.sha1")
      (some "0123abcd") true none =
      .ok ["python", "third_party/depot_tools/download_from_google_storage.py",
           "--no_resume", "--no_auth", "--bucket", "chromium-browser-clang",
           "0123abcd", "-s", "f.sha1", "--extract"] ∧
    download_from_google_storage "chromium-browser-clang" none none true none =
      .ok ["python", "third_party/depot_tools/download_from_google_storage.py",
           "--no_resume", "--no_auth", "--bucket", "chromium-browser-clang",
           "--extract"] := by
  decide

/-- C1 (amended): `download_from_google_storage` itself performs no
both-or-neither validation, but every blob-download call the orchestrator
makes supplies exactly one of the two content identities. -/
theorem C1_call_sites_exactly_one (cfg : Config) (plan : List Step)
    (h : main cfg = .ok plan) (b : String) (s1 sf : Option String)
    (e : Bool) (o : Option String)
    (hmem : Step.gsDownload b s1 sf e o ∈ plan) :
    (s1 ≠ none ∧ sf = none) ∨ (s1 = none ∧ sf ≠ none) := by
  obtain ⟨pre, rest, hrest, rfl, _, hpre⟩ := main_inv cfg plan h
  rcases List.mem_append.mp hmem with hm | hm
  · rcases hpre _ hm with ⟨u, d, heq⟩ | ⟨a, c, heq⟩ <;> exact Step.noConfusion heq
  · obtain ⟨ho, hc, ns, _, _, hnode, rfl⟩ := mainRest_inv cfg rest hrest
    have hall := mainRestSteps_forms cfg ho hc ns
      (download_nodejs_planStepOk cfg ho ns hnode) _ hm
    exact hall.2 b s1 sf e o rfl

/-- C1 (witness): the linux run's node blob download supplies only the
hash-pointer file. -/
theorem C1_call_sites_witness :
    main cfgLinuxX64 = .ok planLinuxX64 ∧
    (((none : Option String) ≠ none ∧
        (some "third_party/node/linux/node-linux-x64.tar.gz.sha1" :
          Option String) = none) ∨
     ((none : Option String) = none ∧
        (some "third_party/node/linux/node-linux-x64.tar.gz.sha1" :
          Option String) ≠ none)) :=
  ⟨rfl, C1_call_sites_exactly_one cfgLinuxX64 planLinuxX64 rfl
    "chromium-nodejs/20.11.1" none
    (some "third_party/node/linux/node-linux-x64.tar.gz.sha1") true none
    (by decide)⟩

/-- C9: with the linux node sha1 marker file present and host OS `mac`,
`download_nodejs` hits the unbound name `host_cpu` in the f-string of the
mac branch and raises a `NameError` instead of completing the mac node
download. -/
theorem C9_nodejs_mac_name_error (cfg : Config)
    (h : cfg.nodeMarkerExists = true) :
    download_nodejs cfg "mac" =
      .error "NameError: name host_cpu is not defined" := by
  unfold download_nodejs
  simp [h, nodejsScopeLookup]

/-- C9 (witness): the concrete mac run raises the `NameError`. -/
theorem C9_nodejs_mac_name_error_witness :
    cfgMacMarker.nodeMarkerExists = true ∧
    download_nodejs cfgMacMarker "mac" =
      .error "NameError: name host_cpu is not defined" :=
  ⟨rfl, C9_nodejs_mac_name_error cfgMacMarker rfl⟩

/-- C7 (counterexample): on the concrete linux run the environment
overlay written by `add_depot_tools_to_path` contains the Windows
toolchain base URL and both fixed hash constants, although the host OS
is linux, refuting that they are set only on Windows. -/
theorem C7_counterexample_win_vars_on_linux :
    main cfgLinuxX64 = .ok planLinuxX64 ∧
    current_os cfgLinuxX64.sysPlatform = .ok "linux" ∧
    Step.setEnv (add_depot_tools_to_path "/rd" "/rd/src" "/usr/bin") ∈
      planLinuxX64 ∧
    ("DEPOT_TOOLS_WIN_TOOLCHAIN_BASE_URL",
      "https://dev-cdn.electronjs.org/windows-toolchains/_") ∈
      add_depot_tools_to_path "/rd" "/rd/src" "/usr/bin" ∧
    ("GYP_MSVS_HASH_27370823e7", "28622d16b1") ∈
      add_depot_tools_to_path "/rd" "/rd/src" "/usr/bin" ∧
    ("GYP_MSVS_HASH_7393122652", "3ba76c5c20") ∈
      add_depot_tools_to_path "/rd" "/rd/src" "/usr/bin" := by
  refine ⟨rfl, rfl, ?_, ?_, ?_, ?_⟩ <;> decide

/-- C7 (amended): the Environment Materializer writes the auto-update
flag, the buildtools path, the search path with the vendored directories
prepended, and also the Windows toolchain switch, base URL and both hash
constants, unconditionally — the overlay does not depend on the host OS,
and every successful orchestrator run installs it. -/
theorem C7_env_overlay_all_platforms (rootDir src_dir oldPath : String) :
    (("DEPOT_TOOLS_UPDATE", "0") ∈
      add_depot_tools_to_path rootDir src_dir oldPath) ∧
    (("CHROMIUM_BUILDTOOLS_PATH", src_dir ++ "/buildtools") ∈
      add_depot_tools_to_path rootDir src_dir oldPath) ∧
    (("PATH", src_dir ++ "/third_party/ninja" ++ ":" ++
        (rootDir ++ "/vendor/depot_tools") ++ ":" ++ oldPath) ∈
      add_depot_tools_to_path rootDir src_dir oldPath) ∧
    (("DEPOT_TOOLS_WIN_TOOLCHAIN", "1") ∈
      add_depot_tools_to_path rootDir src_dir oldPath) ∧
    (("DEPOT_TOOLS_WIN_TOOLCHAIN_BASE_URL",
        "https://dev-cdn.electronjs.org/windows-toolchains/_") ∈
      add_depot_tools_to_path rootDir src_dir oldPath) ∧
    (("GYP_MSVS_HASH_27370823e7", "28622d16b1") ∈
      add_depot_tools_to_path rootDir src_dir oldPath) ∧
    (("GYP_MSVS_HASH_7393122652", "3ba76c5c20") ∈
      add_depot_tools_to_path rootDir src_dir oldPath) ∧
    (∀ cfg plan, main cfg = .ok plan →
      Step.setEnv (add_depot_tools_to_path cfg.rootDir cfg.src_dir cfg.envPath)
        ∈ plan) := by
  refine ⟨by simp [add_depot_tools_to_path], by simp [add_depot_tools_to_path],
    by simp [add_depot_tools_to_path], by simp [add_depot_tools_to_path],
    by simp [add_depot_tools_to_path], by simp [add_depot_tools_to_path],
    by simp [add_depot_tools_to_path], ?_⟩
  intro cfg plan h
  obtain ⟨pre, rest, hrest, rfl, _, _⟩ := main_inv cfg plan h
  obtain ⟨ho, hc, ns, _, _, _, rfl⟩ := mainRest_inv cfg rest hrest
  rw [List.mem_append]
  right
  unfold mainRestSteps
  simp [List.mem_append]

/-- C2: on a linux host the plan installs a sysroot for the host CPU and,
exactly when the target CPU differs, one more for the target CPU, in that
order and nothing else; with a non-Windows target OS no step of the plan
is Windows- or Mac-specific. -/
theorem C2_linux_sysroot_plan (cfg : Config) (plan : List Step)
    (host_cpu : String)
    (hos : current_os cfg.sysPlatform = .ok "linux")
    (hcpu : current_cpu cfg.machine = .ok host_cpu)
    (hmain : main cfg = .ok plan) :
    plan.filterMap sysrootArch =
      host_cpu ::
        (if host_cpu = cfg.target_cpu then [] else [cfg.target_cpu]) ∧
    (cfg.target_os ≠ "win" → ∀ s ∈ plan, ¬ isWinOnly s ∧ ¬ isMacOnly s) := by
  obtain ⟨pre, rest, hrest, rfl, _, hpre⟩ := main_inv cfg plan hmain
  obtain ⟨ho, hc, ns, hos2, hcpu2, hnode, rfl⟩ := mainRest_inv cfg rest hrest
  rw [hos] at hos2
  injection hos2 with hho
  subst hho
  rw [hcpu] at hcpu2
  injection hcpu2 with hhc
  subst hhc
  have hpreNone : ∀ s ∈ pre, sysrootArch s = none := by
    intro s hs
    rcases hpre s hs with ⟨u, d, rfl⟩ | ⟨a, c, rfl⟩ <;> rfl
  constructor
  · rw [List.filterMap_append, List.filterMap_eq_nil_iff.mpr hpreNone,
      List.nil_append]
    apply mainRestSteps_sysroots
    intro s hs
    obtain ⟨b, s1, sf, e, o, rfl, _⟩ :=
      download_nodejs_ok_steps cfg "linux" ns hnode s hs
    rfl
  · intro htar s hs
    rcases List.mem_append.mp hs with hm | hm
    · rcases hpre s hm with ⟨u, d, rfl⟩ | ⟨a, c, rfl⟩ <;>
        simp [isWinOnly, isMacOnly]
    · exact mainRestSteps_linux_no_win_mac cfg host_cpu ns htar
        (download_nodejs_linux_no_win_mac cfg ns hnode) s hm

/-- C2 (witness): the concrete `{linux, x64}` host with target
`{linux, arm}` installs exactly the two sysroots `x64` then `arm`. -/
theorem C2_linux_sysroot_plan_witness :
    current_os cfgLinuxX64.sysPlatform = .ok "linux" ∧
    current_cpu cfgLinuxX64.machine = .ok "x64" ∧
    main cfgLinuxX64 = .ok planLinuxX64 ∧
    planLinuxX64.filterMap sysrootArch = ["x64", "arm"] := by
  refine ⟨rfl, rfl, rfl, ?_⟩
  have h := (C2_linux_sysroot_plan cfgLinuxX64 planLinuxX64 "x64" rfl rfl rfl).1
  simpa using h

/-- C8: when the destination source directory already exists (and the
argument check passes), the run performs no tarball download or rename:
it is exactly the remaining stages, and no successful plan contains a
download-and-extract or rename step. -/
theorem C8_existing_src_skips_tarball (cfg : Config)
    (hargs : truthy cfg.revision = true ∨ truthy cfg.tarball_url = true)
    (hsrc : cfg.srcDirIsDir = true) :
    main cfg = mainRest cfg ∧
    ∀ plan, main cfg = .ok plan →
      (∀ u d, Step.downloadExtract u d ∉ plan) ∧
      (∀ a c, Step.rename a c ∉ plan) := by
  constructor
  · unfold main
    have h1 : ¬(¬ truthy cfg.revision = true ∧ ¬ truthy cfg.tarball_url = true) := by
      tauto
    rw [if_neg h1]
    simp only [hsrc, not_true, if_neg, Bool.not_eq_true]
    cases h2 : mainRest cfg <;> simp [h2]
  · intro plan h
    obtain ⟨pre, rest, hrest, rfl, hpre0, _⟩ := main_inv cfg plan h
    rw [hpre0 hsrc, List.nil_append]
    obtain ⟨ho, hc, ns, _, _, hnode, rfl⟩ := mainRest_inv cfg rest hrest
    have hall := mainRestSteps_forms cfg ho hc ns
      (download_nodejs_planStepOk cfg ho ns hnode)
    constructor
    · intro u d hm
      exact (hall _ hm).1.1 u d rfl
    · intro a c hm
      exact (hall _ hm).1.2 a c rfl

/-- C8 (witness): the concrete linux run with an existing source
directory reduces to the remaining stages. -/
theorem C8_existing_src_skips_tarball_witness :
    (truthy cfgLinuxX64.revision = true ∨
      truthy cfgLinuxX64.tarball_url = true) ∧
    cfgLinuxX64.srcDirIsDir = true ∧
    main cfgLinuxX64 = mainRest cfgLinuxX64 :=
  ⟨Or.inl (by decide), rfl,
   (C8_existing_src_skips_tarball cfgLinuxX64 (Or.inl (by decide)) rfl).1⟩

end BuildChromium
